import Mathlib

/-!
Verification development for the pi-dashboard telemetry core.

This file gives a shallow embedding, in Lean 4, of the pure logic of the
multi-source telemetry and health-check engine of the repository:

* the protocol probe dispatcher (`server/index.js`: `checkHttpService`,
  `checkTcpService`, `checkRedisService`, `checkDnsService`,
  `checkInterfaceService`, `checkService`),
* the delta metric cache (`server/stats.js`: `cpuCache`,
  `calculateCpuPercent`),
* the WireGuard status parser (`parseWgShow`, `parseHandshakeTime`,
  `parsePivpnList`, `getWireGuardData`),
* the listening-socket discovery scanner (`server/stats.js`:
  `discoverServices`) and its identification tables
  (`server/services-config.js`),
* the fan-out aggregation of the `/api/v1/system` route together with
  `getSystemStats`.

Conventions of the embedding:

* Stateful JavaScript (the `cpuCache` map, the discovery scanner's `seen`
  set) becomes explicit state passing.
* Asynchronous I/O events (socket connects, HTTP responses, timeouts,
  DNS callbacks) are made explicit as an environment value: each check
  function is embedded as a pure function from the service descriptor
  and the observed I/O event to the `HealthResult` that the
  corresponding promise resolves with.
* JavaScript numbers are embedded as `Nat`/`Int`/`Rat` with explicit
  rounding (`Math.round x` becomes `⌊x + 1/2⌋`); `NaN` is embedded as
  `Option.none` where it can arise.
* JavaScript string primitives (`split`, `trim`, `includes`,
  `startsWith`, first-occurrence `replace`, `parseInt`, `parseFloat`,
  and the concrete regular expressions of the source) are embedded as
  structurally recursive functions on `List Char`, restricted to ASCII
  whitespace, matching the source's use sites.
-/

namespace PiDash

/-! ## JavaScript string primitives -/

/-- ASCII whitespace, the subset of JavaScript's `\s` exercised by the
inputs of this program (command output uses spaces, tabs and newlines). -/
def isWs (c : Char) : Bool :=
  c == ' ' || c == '\t' || c == '\n' || c == '\r'

/-- `String.trim` / JavaScript `str.trim()` on ASCII whitespace. -/
def jsTrim (s : String) : String :=
  String.mk (((s.toList.dropWhile isWs).reverse.dropWhile isWs).reverse)

/-- JavaScript `str.split('\n')`: splits on every newline, keeping empty
pieces, and yields `[""]` on the empty string. -/
def splitNlAux (acc : List Char) : List Char → List String
  | [] => [String.mk acc.reverse]
  | c :: t =>
    if c == '\n' then String.mk acc.reverse :: splitNlAux [] t
    else splitNlAux (c :: acc) t

/-- JavaScript `str.split('\n')`. -/
def jsSplitNl (s : String) : List String :=
  splitNlAux [] s.toList

/-- `strStarts s p`: JavaScript `s.startsWith(p)`. -/
def strStarts (s p : String) : Bool :=
  p.toList.isPrefixOf s.toList

/-- Substring search on character lists (JavaScript `includes`). -/
def charsContain (pat : List Char) : List Char → Bool
  | [] => pat.isEmpty
  | c :: t => pat.isPrefixOf (c :: t) || charsContain pat t

/-- JavaScript `s.includes(pat)`. -/
def containsSub (s pat : String) : Bool :=
  charsContain pat.toList s.toList

/-- Remove the first occurrence of `pat` from `cs`
(JavaScript `str.replace(pat, '')` with a plain-string pattern). -/
def removeFirstAux (pat : List Char) : List Char → List Char
  | [] => []
  | c :: t =>
    if pat.isPrefixOf (c :: t) then (c :: t).drop pat.length
    else c :: removeFirstAux pat t

/-- JavaScript `s.replace(pat, '')` (first occurrence only). -/
def replaceFirst (s pat : String) : String :=
  String.mk (removeFirstAux pat.toList s.toList)

/-- Digits to a natural number (the digit strings fed to it come from
regex groups matching `\d+`). -/
def natOfDigits (ds : List Char) : Nat :=
  ds.foldl (fun a c => a * 10 + (c.toNat - '0'.toNat)) 0

/-- JavaScript `parseInt(str, 10)`: skip leading whitespace, optional
sign, then a leading digit run; `none` embeds `NaN` (no digits). -/
def jsParseInt (s : String) : Option Int :=
  let cs := s.toList.dropWhile isWs
  match cs with
  | '-' :: t =>
    let ds := t.takeWhile Char.isDigit
    if ds.isEmpty then none else some (-(natOfDigits ds : Int))
  | '+' :: t =>
    let ds := t.takeWhile Char.isDigit
    if ds.isEmpty then none else some (natOfDigits ds : Int)
  | t =>
    let ds := t.takeWhile Char.isDigit
    if ds.isEmpty then none else some (natOfDigits ds : Int)

/-- JavaScript `parseFloat` on the decimal strings produced by the
`[\d.]+` regex groups of this program: optional integer digits, an
optional dot, fraction digits. `none` embeds `NaN` (no leading digits
and no `.digit` start). Exponents never occur in those groups. -/
def jsParseFloat (s : String) : Option ℚ :=
  let cs := s.toList.dropWhile isWs
  let intPart := cs.takeWhile Char.isDigit
  let rest := cs.dropWhile Char.isDigit
  match rest with
  | '.' :: t =>
    let frac := t.takeWhile Char.isDigit
    if intPart.isEmpty && frac.isEmpty then none
    else some ((natOfDigits intPart : ℚ) +
      (natOfDigits frac : ℚ) / ((10 : ℚ) ^ frac.length))
  | _ =>
    if intPart.isEmpty then none else some (natOfDigits intPart : ℚ)

/-- JavaScript `Math.round` (half away from zero upward: `⌊x + 1/2⌋`). -/
def jsRound (q : ℚ) : Int :=
  ⌊q + 1 / 2⌋

/-- JavaScript `||` default for strings (empty string is falsy). -/
def orDefault (s d : String) : String :=
  if s = "" then d else s

/-- JavaScript `o.f || d` where `o.f` may be absent (`none`), with the
empty string falsy as well. -/
def optOrDefault (o : Option String) (d : String) : String :=
  match o with
  | none => d
  | some s => orDefault s d

/-! ## Service descriptors and health results

`ServiceDescriptor` and `HealthResult` from the spec's data model; the
`HealthResult` of the source spreads the descriptor's fields and adds
`status`, `latency` and (for HTTP) `statusCode`.  The embedding keeps
the descriptor as one nested field. -/

inductive Status where
  | online
  | offline
  | error
deriving DecidableEq, Repr

structure Service where
  name : String := ""
  host : Option String := none
  port : Nat := 0
  path : Option String := none
  checkType : String := ""
  interface : Option String := none
deriving DecidableEq, Repr

structure HealthResult where
  service : Service
  status : Status
  latency : Option Nat
  statusCode : Option Int := none
deriving DecidableEq, Repr

/-! ## I/O events observed by one probe

Each checker registers callbacks; exactly one of them fires first and
resolves the promise.  The constructors below enumerate the callbacks
of the corresponding source function. -/

/-- `checkHttpService`: the 3000 ms `setTimeout`, the response callback
(with its status code), the `error` event, or the request's own
`timeout` event. -/
inductive HttpEvent where
  | timeout
  | reqTimeout
  | connError
  | response (statusCode : Int)
deriving DecidableEq, Repr

/-- `checkTcpService`: the 3000 ms `setTimeout`, the connect callback,
or the `error` event. -/
inductive TcpEvent where
  | timeout
  | connError
  | connected
deriving DecidableEq, Repr

/-- `checkRedisService`: the 3000 ms `setTimeout`, the first `data`
event (with the received text), or the `error` event. -/
inductive RedisEvent where
  | timeout
  | connError
  | data (resp : String)
deriving DecidableEq, Repr

/-- `checkDnsService`: the 3000 ms `setTimeout`, or the `resolve`
callback with or without an error. -/
inductive DnsEvent where
  | timeout
  | resolveErr
  | resolveOk
deriving DecidableEq, Repr

/-- `checkInterfaceService`: the `fs.access` callback, with or without
an error. -/
inductive IfaceEvent where
  | accessErr
  | accessOk
deriving DecidableEq, Repr

/-- The environment one probe runs against: which callback fires for
each protocol, and the wall-clock `Date.now() - start` difference
observed when a latency is recorded. -/
structure ProbeEnv where
  httpEvent : HttpEvent := HttpEvent.timeout
  tcpEvent : TcpEvent := TcpEvent.timeout
  redisEvent : RedisEvent := RedisEvent.timeout
  dnsEvent : DnsEvent := DnsEvent.timeout
  ifaceEvent : IfaceEvent := IfaceEvent.accessErr
  elapsedMs : Nat := 0
deriving DecidableEq, Repr

/-- `checkHttpService` (HEAD request to `host:port/path`): response with
status `< 500` is `online`, `>= 500` is `error` (latency recorded in
both); timeout or connection error is `offline` with `latency: null`. -/
def checkHttpService (s : Service) (env : ProbeEnv) : HealthResult :=
  match env.httpEvent with
  | HttpEvent.timeout => { service := s, status := Status.offline, latency := none }
  | HttpEvent.reqTimeout => { service := s, status := Status.offline, latency := none }
  | HttpEvent.connError => { service := s, status := Status.offline, latency := none }
  | HttpEvent.response sc =>
    { service := s
      status := if sc < 500 then Status.online else Status.error
      latency := some env.elapsedMs
      statusCode := some sc }

/-- `checkTcpService` (bare connect): success is `online` with latency;
timeout or error is `offline` with `latency: null`. -/
def checkTcpService (s : Service) (env : ProbeEnv) : HealthResult :=
  match env.tcpEvent with
  | TcpEvent.timeout => { service := s, status := Status.offline, latency := none }
  | TcpEvent.connError => { service := s, status := Status.offline, latency := none }
  | TcpEvent.connected =>
    { service := s, status := Status.online, latency := some env.elapsedMs }

/-- `checkRedisService` (PING over a raw socket): a reply containing
`PONG` after trimming is `online`, any other reply is `error` (latency
recorded in both); timeout or connect error is `offline`. -/
def checkRedisService (s : Service) (env : ProbeEnv) : HealthResult :=
  match env.redisEvent with
  | RedisEvent.timeout => { service := s, status := Status.offline, latency := none }
  | RedisEvent.connError => { service := s, status := Status.offline, latency := none }
  | RedisEvent.data resp =>
    { service := s
      status := if containsSub (jsTrim resp) "PONG" then Status.online else Status.error
      latency := some env.elapsedMs }

/-- `checkDnsService` (resolve a probe domain against the target as
nameserver): resolver success is `online` with latency; error or
timeout is `offline` with `latency: null`. -/
def checkDnsService (s : Service) (env : ProbeEnv) : HealthResult :=
  match env.dnsEvent with
  | DnsEvent.timeout => { service := s, status := Status.offline, latency := none }
  | DnsEvent.resolveErr => { service := s, status := Status.offline, latency := none }
  | DnsEvent.resolveOk =>
    { service := s, status := Status.online, latency := some env.elapsedMs }

/-- `checkInterfaceService` (existence of `/sys/class/net/<iface>`):
present is `online` with latency, absent is `offline` with null
latency. -/
def checkInterfaceService (s : Service) (env : ProbeEnv) : HealthResult :=
  match env.ifaceEvent with
  | IfaceEvent.accessErr => { service := s, status := Status.offline, latency := none }
  | IfaceEvent.accessOk =>
    { service := s, status := Status.online, latency := some env.elapsedMs }

/-- The five protocol handlers of the dispatcher. -/
inductive Handler where
  | http
  | tcp
  | redis
  | dns
  | iface
deriving DecidableEq, Repr

/-- The `switch (service.checkType)` of `checkService`: the four tagged
cases, with `case 'http'` and `default` both falling to the HTTP
handler. -/
def dispatchHandler (checkType : String) : Handler :=
  match checkType with
  | "tcp" => Handler.tcp
  | "redis" => Handler.redis
  | "dns" => Handler.dns
  | "interface" => Handler.iface
  | _ => Handler.http

def runHandler (h : Handler) (s : Service) (env : ProbeEnv) : HealthResult :=
  match h with
  | Handler.http => checkHttpService s env
  | Handler.tcp => checkTcpService s env
  | Handler.redis => checkRedisService s env
  | Handler.dns => checkDnsService s env
  | Handler.iface => checkInterfaceService s env

/-- `checkService`, the main check dispatcher. -/
def checkService (s : Service) (env : ProbeEnv) : HealthResult :=
  runHandler (dispatchHandler s.checkType) s env

/-- The `setTimeout(..., 3000)` budget each handler registers; the
interface check is a bare `fs.access` with no timer. -/
def handlerTimeoutMs : Handler → Option Nat
  | Handler.http => some 3000
  | Handler.tcp => some 3000
  | Handler.redis => some 3000
  | Handler.dns => some 3000
  | Handler.iface => none

/-- The event observed by the handler that `checkService` dispatches
to, classified as a failure (timeout or connection/IO error). -/
def failureEvent (h : Handler) (env : ProbeEnv) : Bool :=
  match h with
  | Handler.http =>
    env.httpEvent == HttpEvent.timeout || env.httpEvent == HttpEvent.reqTimeout ||
      env.httpEvent == HttpEvent.connError
  | Handler.tcp => env.tcpEvent == TcpEvent.timeout || env.tcpEvent == TcpEvent.connError
  | Handler.redis => env.redisEvent == RedisEvent.timeout || env.redisEvent == RedisEvent.connError
  | Handler.dns => env.dnsEvent == DnsEvent.timeout || env.dnsEvent == DnsEvent.resolveErr
  | Handler.iface => env.ifaceEvent == IfaceEvent.accessErr

/-- `VALID_CHECK_TYPES` from `services-config.js`. -/
def VALID_CHECK_TYPES : List String := ["http", "tcp", "redis", "dns", "interface"]

/-! ## Delta metric cache

`stats.js` keeps one module-level `cpuCache : Map` from a source id to
the last `{usageUsec, timeUsec}` sample.  The embedding passes the map
explicitly as an association list (newest binding first, as `Map.set`
overwrites in place). -/

/-- One `MetricSample` stored in the cache. -/
structure CpuSample where
  usageUsec : Int
  timeUsec : Int
deriving DecidableEq, Repr

abbrev CpuCache := List (String × CpuSample)

/-- `cpuCache.get(id)`. -/
def cacheGet (cache : CpuCache) (id : String) : Option CpuSample :=
  match cache with
  | [] => none
  | (k, v) :: t => if k = id then some v else cacheGet t id

/-- `cpuCache.set(id, s)` (overwrite the binding for `id`). -/
def cacheSet (cache : CpuCache) (id : String) (s : CpuSample) : CpuCache :=
  match cache with
  | [] => [(id, s)]
  | (k, v) :: t => if k = id then (id, s) :: t else (k, v) :: cacheSet t id s

/-- The delta metric cache's `record` contract: return the prior sample
(if any) for `sourceId` and overwrite it with the new sample.  In the
source this is the `cpuCache.get` / `cpuCache.set` pair at the top of
`calculateCpuPercent`. -/
def record (cache : CpuCache) (id : String) (s : CpuSample) :
    Option CpuSample × CpuCache :=
  (cacheGet cache id, cacheSet cache id s)

/-- Replay a list of `record` calls (used to speak about interleaved
updates for other source ids). -/
def recordAll (ops : List (String × CpuSample)) (cache : CpuCache) : CpuCache :=
  match ops with
  | [] => cache
  | (id, s) :: t => recordAll t (record cache id s).2

/-- `calculateCpuPercent(containerId, currentUsageUsec)` from
`stats.js`, with the module state (`cpuCache`, `NUM_CPUS`) and the
clock (`Date.now() * 1000`) passed explicitly.  `currentUsageUsec` is
`Option`al because `readCgroupCpuUsage` returns `null` on unreadable
accounting files; the early return then leaves the cache untouched.
Arithmetic is over `ℚ` (JavaScript doubles are exact on the integer
deltas involved here), and `Math.round(x * 10) / 10` is embedded with
`jsRound`. -/
def calculateCpuPercent (numCpus : Nat) (cache : CpuCache) (containerId : String)
    (currentUsageUsec : Option Int) (nowUsec : Int) : ℚ × CpuCache :=
  match currentUsageUsec with
  | none => (0, cache)
  | some u =>
    let (cached, cache') := record cache containerId ⟨u, nowUsec⟩
    match cached with
    | none => (0, cache')
    | some c =>
      let deltaUsage : Int := u - c.usageUsec
      let deltaTime : Int := nowUsec - c.timeUsec
      if deltaTime ≤ 0 ∨ deltaUsage < 0 then (0, cache')
      else
        let cpuPercent : ℚ :=
          ((deltaUsage : ℚ) / (deltaTime : ℚ)) * 100 / (numCpus : ℚ)
        ((jsRound (cpuPercent * 10) : ℚ) / 10, cache')

/-! ## WireGuard status parsing

`parseHandshakeTime`, the transfer clause parsing inside `parseWgShow`,
and the `parseWgShow` line-oriented state machine.  The regular
expressions of the source are embedded as explicit scanners over
`List Char`; scanning is left to right, alternations are tried in the
source's order, and only the first match is used, as with a
non-global JavaScript regex. -/

/-- Case-insensitive literal match: if `pat` is a prefix of `cs` up to
ASCII case, return the remainder of `cs`. -/
def matchCI : List Char → List Char → Option (List Char)
  | [], cs => some cs
  | _ :: _, [] => none
  | p :: ps, c :: cs => if p.toLower = c.toLower then matchCI ps cs else none

/-- The time units of `parseHandshakeTime`'s regex alternation
`(second|minute|hour|day)`, in source order, with their multipliers. -/
def hsUnits : List (String × Nat) :=
  [("second", 1), ("minute", 60), ("hour", 3600), ("day", 86400)]

/-- Try the unit alternation at the current position; on success return
the canonical (lower-case) unit together with the remainder after the
unit word and an optional plural `s`. -/
def tryHsUnit (cs : List Char) : Option (Nat × List Char) :=
  match hsUnits.findSome? (fun (u, mult) =>
      (matchCI u.toList cs).map (fun rem => (mult, rem))) with
  | none => none
  | some (mult, rem) =>
    match rem with
    | 's' :: t => some (mult, t)
    | 'S' :: t => some (mult, t)
    | t => some (mult, t)

/-- Global scan for `/(\d+)\s*(second|minute|hour|day)s?/gi`: each match
contributes `value * multiplier` seconds.  `fuel` bounds the recursion;
it is initialised with the text length, which suffices because every
step consumes at least one character. -/
def scanHsF : Nat → List Char → List Nat
  | 0, _ => []
  | _ + 1, [] => []
  | fuel + 1, c :: rest =>
    if c.isDigit then
      let run := (c :: rest).takeWhile Char.isDigit
      let after := (c :: rest).dropWhile Char.isDigit
      let afterWs := after.dropWhile isWs
      match tryHsUnit afterWs with
      | some (mult, rem) => natOfDigits run * mult :: scanHsF fuel rem
      | none => scanHsF fuel rest
    else scanHsF fuel rest

/-- `parseHandshakeTime(str)`: `null` for an empty string (falsy) or a
text without any time phrase, otherwise the sum of the matched
`value × unit` contributions in seconds. -/
def parseHandshakeTime (s : String) : Option Nat :=
  if s = "" then none
  else
    match scanHsF s.toList.length s.toList with
    | [] => none
    | parts => some (parts.foldl (· + ·) 0)

/-- The byte units of the transfer regexes `(B|KiB|MiB|GiB)`, in source
alternation order. -/
def byteUnits : List String := ["B", "KiB", "MiB", "GiB"]

/-- Try the unit alternation followed by `\s*` and the (case-insensitive)
literal `suffix` (`received` or `sent`); on success return the unit text
as it appears in the input (the regex capture group). -/
def tryByteUnit (cs suffix : List Char) : Option String :=
  byteUnits.findSome? (fun u =>
    match matchCI u.toList cs with
    | none => none
    | some rem =>
      if (matchCI suffix (rem.dropWhile isWs)).isSome then
        some (String.mk (cs.take u.length))
      else none)

/-- First match of `/([\d.]+)\s*(B|KiB|MiB|GiB)\s*<suffix>/i` scanning
left to right: returns the two capture groups (the decimal text and the
unit text). -/
def scanTransfer (suffix : List Char) : List Char → Option (String × String)
  | [] => none
  | c :: rest =>
    if c.isDigit || c == '.' then
      let run := (c :: rest).takeWhile (fun x => x.isDigit || x == '.')
      let after := (c :: rest).dropWhile (fun x => x.isDigit || x == '.')
      match tryByteUnit (after.dropWhile isWs) suffix with
      | some unit => some (String.mk run, unit)
      | none => scanTransfer suffix rest
    else scanTransfer suffix rest

/-- The unit branch of `parseBytes`: the lower-cased unit selects the
binary (1024-based) multiplier, with unknown units falling through to
the bare value (the final `return Math.round(v)`). -/
def unitMultiplier (unit : String) : ℚ :=
  let u := String.mk (unit.toList.map Char.toLower)
  if u = "b" then 1
  else if u = "kib" then 1024
  else if u = "mib" then 1024 * 1024
  else if u = "gib" then 1024 * 1024 * 1024
  else 1

/-- `parseBytes(value, unit)` from the transfer branch of `parseWgShow`:
`Math.round(parseFloat(value) * multiplier)`; `none` embeds the `NaN`
produced when `parseFloat` fails on an all-dots group. -/
def parseBytes (value unit : String) : Option Int :=
  (jsParseFloat value).map (fun v => jsRound (v * unitMultiplier unit))

/-- One peer block of `parseWgShow`'s output.  `transfer` fields start
at `some 0` and become `none` only in the unreachable `NaN` case;
`lastHandshake` is the epoch-seconds value `now - lastHandshakeSeconds`
computed from the clock parameter. -/
structure WgPeer where
  publicKey : String
  endpoint : Option String := none
  lastHandshake : Option Int := none
  lastHandshakeSeconds : Option Nat := none
  transferReceived : Option Int := some 0
  transferSent : Option Int := some 0
deriving DecidableEq, Repr

structure WgInterface where
  name : String
  publicKey : Option String := none
  listenPort : Option Int := none
deriving DecidableEq, Repr

structure WgShowResult where
  interface : WgInterface
  peers : List WgPeer
deriving DecidableEq, Repr

/-- The fold state of `parseWgShow`'s loop: the interface record, the
peers pushed so far, and the block being built (`currentPeer`). -/
structure WgState where
  interface : WgInterface
  peers : List WgPeer
  current : Option WgPeer
deriving DecidableEq, Repr

/-- 1 when a peer block is currently open, else 0 (used to count the
pending block against the flushed ones). -/
def countCur : Option WgPeer → Nat
  | none => 0
  | some _ => 1

/-- Attribute one detail line (`endpoint:`, `latest handshake:`,
`transfer:`) to the current peer block; any other line inside a block is
ignored.  `t` is the trimmed line. -/
def peerDetail (nowSec : Int) (p : WgPeer) (t : String) : WgPeer :=
  if strStarts t "endpoint:" then
    { p with endpoint := some (jsTrim (replaceFirst t "endpoint:")) }
  else if strStarts t "latest handshake:" then
    let hs := parseHandshakeTime (jsTrim (replaceFirst t "latest handshake:"))
    { p with
      lastHandshakeSeconds := hs
      lastHandshake := match hs with
        | none => p.lastHandshake
        | some secs => some (nowSec - (secs : Int)) }
  else if strStarts t "transfer:" then
    let transferStr := jsTrim (replaceFirst t "transfer:")
    let rx := scanTransfer "received".toList transferStr.toList
    let tx := scanTransfer "sent".toList transferStr.toList
    let p := match rx with
      | some (v, u) => { p with transferReceived := parseBytes v u }
      | none => p
    match tx with
    | some (v, u) => { p with transferSent := parseBytes v u }
    | none => p
  else p

/-- One iteration of `parseWgShow`'s `for (const line of lines)` body,
with the source's branch order: `public key:` (interface section only),
`listening port:`, `peer:` (flushes the current block), then peer
details when inside a block. -/
def wgStep (nowSec : Int) (st : WgState) (line : String) : WgState :=
  let t := jsTrim line
  if strStarts t "public key:" then
    match st.current with
    | none =>
      { st with interface :=
          { st.interface with publicKey := some (jsTrim (replaceFirst t "public key:")) } }
    | some _ => st
  else if strStarts t "listening port:" then
    { st with interface :=
        { st.interface with
          listenPort := jsParseInt (jsTrim (replaceFirst t "listening port:")) } }
  else if strStarts t "peer:" then
    { st with
      peers := match st.current with
        | none => st.peers
        | some p => st.peers ++ [p]
      current := some { publicKey := jsTrim (replaceFirst t "peer:") } }
  else
    match st.current with
    | none => st
    | some p => { st with current := some (peerDetail nowSec p t) }

/-- `parseWgShow(output, interfaceName)`, with the epoch clock
(`Math.floor(Date.now() / 1000)`) passed explicitly: fold the state
machine over the lines and flush the last peer block unconditionally. -/
def parseWgShow (output : String) (interfaceName : String) (nowSec : Int) :
    WgShowResult :=
  let st := (jsSplitNl output).foldl (wgStep nowSec)
    { interface := { name := interfaceName }, peers := [], current := none }
  { interface := st.interface
    peers := match st.current with
      | none => st.peers
      | some p => st.peers ++ [p] }

/-- Number of lines of the status text whose trimmed form starts with
the `peer:` marker. -/
def peerMarkerCount (output : String) : Nat :=
  ((jsSplitNl output).filter (fun l => strStarts (jsTrim l) "peer:")).length

/-! ## WireGuard command gate (`getWireGuardData`)

Everything up to the first `execAsync` is pure: the enabled flag, the
interface-name default, and the safety pattern.  The gate result says
whether the function returns early (`disabled`), returns the structured
error without executing anything (`invalidIface`), or goes on to run
`wg show <name>`. -/

structure WgSettings where
  enabled : Bool := false
  interface : Option String := none
deriving DecidableEq, Repr

/-- `^[a-zA-Z0-9_-]{1,15}$`, the `VALID_IFACE_REGEX` of
`getWireGuardData`. -/
def validIfaceChar (c : Char) : Bool :=
  ('a' ≤ c && c ≤ 'z') || ('A' ≤ c && c ≤ 'Z') || ('0' ≤ c && c ≤ '9') ||
    c == '_' || c == '-'

def validIface (s : String) : Bool :=
  1 ≤ s.toList.length && s.toList.length ≤ 15 && s.toList.all validIfaceChar

/-- The decision `getWireGuardData` takes before any command runs. -/
inductive WgGate where
  | disabled
  | invalidIface (errorMsg : String)
  | execute (interfaceName : String)
deriving DecidableEq, Repr

/-- The pure prefix of `getWireGuardData(settings)`: disabled settings
return `{enabled:false}`; an interface name (defaulted to `"wg0"` when
absent or empty) failing the safety pattern returns the structured
error `'Invalid WireGuard interface name'` with no command executed;
otherwise `wg show <interfaceName>` is executed. -/
def wireGuardGate (settings : Option WgSettings) : WgGate :=
  let wgConfig := match settings with
    | none => ({ } : WgSettings)
    | some c => c
  if !wgConfig.enabled then WgGate.disabled
  else
    let interfaceName := optOrDefault wgConfig.interface "wg0"
    if !validIface interfaceName then
      WgGate.invalidIface "Invalid WireGuard interface name"
    else WgGate.execute interfaceName

/-! ## Service discovery scanner

`discoverServices` from `stats.js` with the identification tables of
`services-config.js`.  The socket-listing command output is a
parameter (text fixtures), so the scan logic is a pure function of the
two listings. -/

/-- One entry of `KNOWN_SERVICES` / `KNOWN_PROCESSES` (`path` and
`interface` are optional in the source objects). -/
structure KnownEntry where
  name : String
  icon : String
  checkType : String
  path : Option String := none
  interface : Option String := none
deriving DecidableEq, Repr

/-- `KNOWN_SERVICES` (port table) from `services-config.js`. -/
def knownServices (port : Nat) : Option KnownEntry :=
  match port with
  | 21 => some { name := "FTP", icon := "folder", checkType := "tcp" }
  | 22 => some { name := "SSH", icon := "terminal", checkType := "tcp" }
  | 25 => some { name := "SMTP", icon := "mail", checkType := "tcp" }
  | 53 => some { name := "DNS", icon := "globe", checkType := "dns" }
  | 80 => some { name := "HTTP", icon := "globe", checkType := "http", path := some "/" }
  | 81 => some { name := "Nginx Proxy Manager", icon := "server", checkType := "http", path := some "/" }
  | 110 => some { name := "POP3", icon := "mail", checkType := "tcp" }
  | 111 => some { name := "RPC", icon := "cpu", checkType := "tcp" }
  | 143 => some { name := "IMAP", icon := "mail", checkType := "tcp" }
  | 443 => some { name := "HTTPS", icon := "lock", checkType := "http", path := some "/" }
  | 500 => some { name := "IKEv2/IPSec", icon := "shield", checkType := "interface", interface := some "ipsec0" }
  | 631 => some { name := "CUPS", icon := "printer", checkType := "http", path := some "/" }
  | 1194 => some { name := "OpenVPN", icon := "shield", checkType := "interface", interface := some "tun0" }
  | 1723 => some { name := "PPTP", icon := "shield", checkType := "tcp" }
  | 1883 => some { name := "MQTT", icon := "radio", checkType := "tcp" }
  | 2049 => some { name := "NFS", icon := "hard-drive", checkType := "tcp" }
  | 3000 => some { name := "Grafana", icon := "bar-chart", checkType := "http", path := some "/api/health" }
  | 3001 => some { name := "Pi Dashboard", icon := "activity", checkType := "http", path := some "/api/health" }
  | 3306 => some { name := "MySQL", icon := "database", checkType := "tcp" }
  | 4500 => some { name := "IPSec NAT-T", icon := "shield", checkType := "interface", interface := some "ipsec0" }
  | 5432 => some { name := "PostgreSQL", icon := "database", checkType := "tcp" }
  | 5900 => some { name := "VNC", icon := "monitor", checkType := "tcp" }
  | 5984 => some { name := "CouchDB", icon := "database", checkType := "http" }
  | 6379 => some { name := "Redis", icon := "database", checkType := "redis" }
  | 6881 => some { name := "BitTorrent", icon := "download", checkType := "tcp" }
  | 7474 => some { name := "Neo4j", icon := "database", checkType := "http" }
  | 7681 => some { name := "ttyd", icon := "terminal", checkType := "http", path := some "/" }
  | 8080 => some { name := "HTTP Proxy", icon := "globe", checkType := "http", path := some "/" }
  | 8086 => some { name := "InfluxDB", icon := "database", checkType := "http" }
  | 8096 => some { name := "Jellyfin", icon := "film", checkType := "http", path := some "/" }
  | 8112 => some { name := "Deluge", icon := "download", checkType := "http", path := some "/" }
  | 8123 => some { name := "Home Assistant", icon := "home", checkType := "http", path := some "/" }
  | 8384 => some { name := "Syncthing", icon := "refresh-cw", checkType := "http", path := some "/" }
  | 8443 => some { name := "HTTPS Alt", icon := "lock", checkType := "http", path := some "/" }
  | 8686 => some { name := "Lidarr", icon := "music", checkType := "http", path := some "/" }
  | 8787 => some { name := "Readarr", icon := "book", checkType := "http", path := some "/" }
  | 8989 => some { name := "Sonarr", icon := "tv", checkType := "http", path := some "/" }
  | 9000 => some { name := "Portainer", icon := "box", checkType := "http", path := some "/" }
  | 9042 => some { name := "Cassandra", icon := "database", checkType := "tcp" }
  | 9090 => some { name := "Prometheus", icon := "bar-chart", checkType := "http", path := some "/-/healthy" }
  | 9091 => some { name := "Transmission", icon := "download", checkType := "http", path := some "/" }
  | 9117 => some { name := "Jackett", icon := "search", checkType := "http", path := some "/" }
  | 9200 => some { name := "Elasticsearch", icon := "database", checkType := "http" }
  | 9696 => some { name := "Prowlarr", icon := "search", checkType := "http", path := some "/" }
  | 10000 => some { name := "Webmin", icon := "settings", checkType := "http", path := some "/" }
  | 11434 => some { name := "Ollama", icon := "cpu", checkType := "http", path := some "/" }
  | 19999 => some { name := "Netdata", icon := "activity", checkType := "http", path := some "/" }
  | 26257 => some { name := "CockroachDB", icon := "database", checkType := "tcp" }
  | 27017 => some { name := "MongoDB", icon := "database", checkType := "tcp" }
  | 28015 => some { name := "RethinkDB", icon := "database", checkType := "tcp" }
  | 32400 => some { name := "Plex", icon := "play-circle", checkType := "http", path := some "/web" }
  | 51413 => some { name := "Transmission P2P", icon := "download", checkType := "tcp" }
  | 51820 => some { name := "WireGuard", icon := "shield", checkType := "interface", interface := some "wg0" }
  | 58846 => some { name := "Deluge Daemon", icon := "download", checkType := "tcp" }
  | _ => none

/-- `KNOWN_PROCESSES` (process-name table) from `services-config.js`. -/
def knownProcesses (proc : String) : Option KnownEntry :=
  match proc with
  | "nginx" => some { name := "Nginx", icon := "server", checkType := "http", path := some "/" }
  | "apache2" => some { name := "Apache", icon := "server", checkType := "http", path := some "/" }
  | "httpd" => some { name := "Apache", icon := "server", checkType := "http", path := some "/" }
  | "pihole-FTL" => some { name := "Pi-hole", icon := "shield", checkType := "http", path := some "/admin/" }
  | "grafana" => some { name := "Grafana", icon := "bar-chart", checkType := "http", path := some "/api/health" }
  | "prometheus" => some { name := "Prometheus", icon := "bar-chart", checkType := "http", path := some "/-/healthy" }
  | "node" => some { name := "Node.js", icon := "hexagon", checkType := "http", path := some "/" }
  | "java" => some { name := "Java App", icon := "coffee", checkType := "http", path := some "/" }
  | "python" => some { name := "Python App", icon := "code", checkType := "http", path := some "/" }
  | "deluged" => some { name := "Deluge", icon := "download", checkType := "http", path := some "/" }
  | "transmission" => some { name := "Transmission", icon := "download", checkType := "http", path := some "/" }
  | "jellyfin" => some { name := "Jellyfin", icon := "film", checkType := "http", path := some "/" }
  | "plex" => some { name := "Plex", icon := "play-circle", checkType := "http", path := some "/web" }
  | "homeassistant" => some { name := "Home Assistant", icon := "home", checkType := "http", path := some "/" }
  | "ollama" => some { name := "Ollama", icon := "cpu", checkType := "http", path := some "/" }
  | "redis-server" => some { name := "Redis", icon := "database", checkType := "redis" }
  | "mariadbd" => some { name := "MariaDB", icon := "database", checkType := "tcp" }
  | "mysqld" => some { name := "MySQL", icon := "database", checkType := "tcp" }
  | "postgres" => some { name := "PostgreSQL", icon := "database", checkType := "tcp" }
  | "mongod" => some { name := "MongoDB", icon := "database", checkType := "tcp" }
  | "sshd" => some { name := "SSH", icon := "terminal", checkType := "tcp" }
  | "unbound" => some { name := "Unbound DNS", icon := "globe", checkType := "dns" }
  | _ => none

/-- `KNOWN_UDP_SERVICES` from `stats.js`. -/
def knownUdpServices (port : Nat) : Option KnownEntry :=
  match port with
  | 500 => some { name := "IKEv2/IPSec", icon := "shield", checkType := "interface", interface := some "ipsec0" }
  | 1194 => some { name := "OpenVPN", icon := "shield", checkType := "interface", interface := some "tun0" }
  | 1723 => some { name := "PPTP", icon := "shield", checkType := "tcp" }
  | 4500 => some { name := "IPSec NAT-T", icon := "shield", checkType := "interface", interface := some "ipsec0" }
  | 51820 => some { name := "WireGuard", icon := "shield", checkType := "interface", interface := some "wg0" }
  | _ => none

/-- Try one alternative of the TCP address regex
`/(?:0\.0\.0\.0|127\.0\.0\.1|\*|::):(\d+)/` at the current position:
the literal, then `:`, then a greedy digit run (the capture group). -/
def tryAddrAlt (alt : List Char) (cs : List Char) : Option Nat :=
  if alt.isPrefixOf cs then
    match cs.drop alt.length with
    | ':' :: r =>
      let ds := r.takeWhile Char.isDigit
      if ds.isEmpty then none else some (natOfDigits ds)
    | _ => none
  else none

/-- All alternatives of the TCP address regex, in source order, at one
position. -/
def tryAddrAt (cs : List Char) : Option Nat :=
  tryAddrAlt "0.0.0.0".toList cs <|> tryAddrAlt "127.0.0.1".toList cs <|>
    tryAddrAlt "*".toList cs <|> tryAddrAlt "::".toList cs

/-- First match of the TCP address regex over the line (the extracted
bound port). -/
def scanAddr : List Char → Option Nat
  | [] => none
  | c :: t =>
    match tryAddrAt (c :: t) with
    | some p => some p
    | none => scanAddr t

/-- The UDP address regex `/(?:0\.0\.0\.0|\*|::):(\d+)/` (no loopback
alternative) at one position. -/
def tryAddrUdpAt (cs : List Char) : Option Nat :=
  tryAddrAlt "0.0.0.0".toList cs <|> tryAddrAlt "*".toList cs <|>
    tryAddrAlt "::".toList cs

def scanAddrUdp : List Char → Option Nat
  | [] => none
  | c :: t =>
    match tryAddrUdpAt (c :: t) with
    | some p => some p
    | none => scanAddrUdp t

/-- First match of the owning-process regex `/users:\(\("([^"]+)"/`:
the literal `users:(("`, then a nonempty run of non-quote characters
(the capture group), then the closing quote. -/
def tryProcAt (cs : List Char) : Option String :=
  let lit := "users:((\"".toList
  if lit.isPrefixOf cs then
    let rem := cs.drop lit.length
    let ds := rem.takeWhile (fun c => c != '"')
    if ds.isEmpty then none
    else
      match rem.drop ds.length with
      | '"' :: _ => some (String.mk ds)
      | _ => none
  else none

def scanProc : List Char → Option String
  | [] => none
  | c :: t =>
    match tryProcAt (c :: t) with
    | some p => some p
    | none => scanProc t

/-- A `DiscoveredService` record as pushed by `discoverServices`.
TCP entries carry the owning process name and no protocol field; UDP
entries carry `protocol: 'udp'` and no process field. -/
structure Discovered where
  name : String
  port : Nat
  path : String
  host : String
  icon : String
  checkType : String
  enabled : Bool
  discovered : Bool
  process : Option String
  protocol : Option String
deriving DecidableEq, Repr

/-- The identification precedence of the TCP loop: (1) known process
name, (2) known port, (3) generic entry for ports below 10000 (named
after the process when one was extracted, `"Port <n>"` otherwise),
and no entry at all for other ports. -/
def identifyService (processName : Option String) (port : Nat) : Option KnownEntry :=
  match processName.bind knownProcesses with
  | some entry => some entry
  | none =>
    match knownServices port with
    | some entry => some entry
    | none =>
      if port < 10000 then
        some { name := match processName with
                 | some p => p
                 | none => "Port " ++ toString port
               icon := "server", checkType := "tcp", path := some "/" }
      else none

/-- The record pushed for an identified TCP service (the `||` defaults
of the source's push). -/
def mkDiscovered (entry : KnownEntry) (port : Nat) (processName : Option String) :
    Discovered :=
  { name := entry.name
    port := port
    path := optOrDefault entry.path "/"
    host := "localhost"
    icon := orDefault entry.icon "server"
    checkType := orDefault entry.checkType "tcp"
    enabled := true
    discovered := true
    process := processName
    protocol := none }

/-- The scan state: the `seen` port set and the `discovered` array. -/
structure ScanState where
  seen : List Nat
  acc : List Discovered
deriving Repr

/-- One iteration of the TCP loop of `discoverServices`: extract the
port, skip high ports and duplicates, mark the port seen, skip
loopback-only lines, then identify. -/
def tcpStep (st : ScanState) (line : String) : ScanState :=
  match scanAddr line.toList with
  | none => st
  | some port =>
    if port > 32767 ∨ port ∈ st.seen then st
    else
      let seen' := port :: st.seen
      if containsSub line "127.0.0.1" then { st with seen := seen' }
      else
        let processName := scanProc line.toList
        match identifyService processName port with
        | none => { st with seen := seen' }
        | some entry =>
          { seen := seen', acc := st.acc ++ [mkDiscovered entry port processName] }

/-- One iteration of the UDP loop: only the fixed VPN ports are added,
and only when not already seen from the TCP pass. -/
def udpStep (st : ScanState) (line : String) : ScanState :=
  match scanAddrUdp line.toList with
  | none => st
  | some port =>
    if port ∈ st.seen then st
    else
      match knownUdpServices port with
      | none => st
      | some entry =>
        { seen := port :: st.seen
          acc := st.acc ++
            [{ name := entry.name
               port := port
               path := optOrDefault entry.interface ""
               host := "localhost"
               icon := entry.icon
               checkType := entry.checkType
               enabled := true
               discovered := true
               process := none
               protocol := some "udp" }] }

/-- Stable insertion by ascending port (the source's
`discovered.sort((a, b) => a.port - b.port)`). -/
def insertByPort (d : Discovered) : List Discovered → List Discovered
  | [] => [d]
  | x :: xs => if x.port ≤ d.port then x :: insertByPort d xs else d :: x :: xs

def sortByPort (l : List Discovered) : List Discovered :=
  l.foldl (fun acc d => insertByPort d acc) []

/-- The scan over the filtered TCP and UDP line lists (the `seen` set
persists from the TCP pass into the UDP pass), followed by the port
sort. -/
def runScan (tcpLines udpLines : List String) : List Discovered :=
  let st := tcpLines.foldl tcpStep { seen := [], acc := [] }
  let st := udpLines.foldl udpStep st
  sortByPort st.acc

/-- `discoverServices` on the two raw listings: TCP lines are those
containing `LISTEN`, UDP lines those containing `UNCONN` or `udp`.
(A failure of the underlying scan command makes the source return the
empty list; the scan logic itself is this pure function.) -/
def discoverServices (tcpOutput udpOutput : String) : List Discovered :=
  runScan
    ((jsSplitNl tcpOutput).filter (fun l => containsSub l "LISTEN"))
    ((jsSplitNl udpOutput).filter
      (fun l => containsSub l "UNCONN" || containsSub l "udp"))

/-! ## Fan-out aggregation (`/api/v1/system` and `getSystemStats`)

The error-propagation skeleton of the poll cycle.  Payload contents
(CPU figures, container records, …) are abstracted to plain values;
what is embedded faithfully is which branch failures are caught where:

* inside `getSystemStats`, the Docker pass is wrapped in `try/catch`
  (empty container list on failure), `si.networkStats` carries
  `.catch(() => [])`, and `getTopProcesses` catches internally — but
  the host-metric reads (`si.currentLoad`, `si.mem`,
  `si.cpuTemperature`, `si.time`) are not guarded, so their rejection
  rejects `getSystemStats` itself;
* `getWireGuardData` never rejects (it returns a record with an
  `error` field), and `checkService` promises always resolve;
* the route awaits `Promise.all [getSystemStats, getSystemInfo,
  getWireGuardData, probes]` inside `try/catch`: any rejection yields
  the 500 response instead of a snapshot. -/

/-- Abstract payloads: `α` stands for the data a branch produces. -/
structure Snapshot (α : Type) where
  host : α
  network : α
  containers : List α
  processes : List α
deriving DecidableEq, Repr

/-- The WireGuard branch outcome as the route sees it: a record that is
disabled, carries a structured error, or carries client data.  All
three are resolved values, never rejections. -/
inductive WgOutcome (α : Type) where
  | disabled
  | failed (msg : String)
  | ok (clients : α)
deriving DecidableEq, Repr

/-- `wireguard.enabled` of the outcome record. -/
def WgOutcome.enabled {α : Type} : WgOutcome α → Bool
  | WgOutcome.disabled => false
  | WgOutcome.failed _ => true
  | WgOutcome.ok _ => true

/-- `getSystemStats`, as a function of its branch outcomes
(`Except Unit` embeds promise rejection): the Docker, network-stats and
top-processes failures are degraded locally; a host-metric rejection
propagates. -/
def getSystemStats {α : Type} (hostMetrics : Except Unit α)
    (netStats : Except Unit α) (docker : Except Unit (List α))
    (procs : Except Unit (List α)) (netDefault : α) :
    Except Unit (Snapshot α) :=
  match hostMetrics with
  | Except.error e => Except.error e
  | Except.ok h =>
    Except.ok
      { host := h
        network := match netStats with
          | Except.ok n => n
          | Except.error _ => netDefault
        containers := match docker with
          | Except.ok cs => cs
          | Except.error _ => []
        processes := match procs with
          | Except.ok ps => ps
          | Except.error _ => [] }

/-- The snapshot assembled by the `/api/v1/system` handler. -/
structure SystemResponse (α : Type) where
  stats : Snapshot α
  info : α
  services : List HealthResult
  wireguard : Option (WgOutcome α)
deriving DecidableEq, Repr

/-- The `/api/v1/system` handler: `Promise.all` over the four branches
inside `try/catch`; a rejection of the stats or info branch produces
the 500 error (`Except.error`), otherwise the snapshot is assembled
(the WireGuard record is attached when its `enabled` flag is set). -/
def systemRoute {α : Type} (stats : Except Unit (Snapshot α))
    (info : Except Unit α) (wireguard : WgOutcome α)
    (probes : List HealthResult) : Except Unit (SystemResponse α) :=
  match stats, info with
  | Except.ok s, Except.ok i =>
    Except.ok
      { stats := s, info := i, services := probes
        wireguard := if wireguard.enabled then some wireguard else none }
  | _, _ => Except.error ()

/-! ## Theorems -/

/-- C1, counterexample.  The claim `latency is null iff status ≠ online`
fails on the code: an HTTP probe whose response has status code 500
resolves with `status: 'error'` and a *non-null* latency (the response
branch of `checkHttpService` records the latency before classifying the
code).  Here the probe of a service with `checkType: 'http'` observes a
500 response after 7 ms. -/
theorem latency_null_iff_not_online_cex :
    ¬ (((checkService { checkType := "http" }
          { httpEvent := HttpEvent.response 500, elapsedMs := 7 }).latency = none) ↔
        ((checkService { checkType := "http" }
          { httpEvent := HttpEvent.response 500, elapsedMs := 7 }).status ≠ Status.online)) := by
  decide

/-- C1, amended.  For every service descriptor and every I/O event, the
`HealthResult` of `checkService` has a null latency iff its status is
`offline`: `offline` results always carry `latency: null`, while both
`online` and `error` results (the latter only possible for the HTTP and
Redis checkers) carry the measured latency. -/
theorem latency_null_iff_offline (s : Service) (env : ProbeEnv) :
    (checkService s env).latency = none ↔
      (checkService s env).status = Status.offline := by
  unfold checkService runHandler
  cases dispatchHandler s.checkType with
  | http =>
    unfold checkHttpService
    cases env.httpEvent with
    | response sc =>
      by_cases h : sc < 500 <;> simp [h]
    | timeout => simp
    | reqTimeout => simp
    | connError => simp
  | tcp =>
    unfold checkTcpService
    cases env.tcpEvent <;> simp
  | redis =>
    unfold checkRedisService
    cases env.redisEvent with
    | data resp =>
      by_cases h : containsSub (jsTrim resp) "PONG" <;> simp [h]
    | timeout => simp
    | connError => simp
  | dns =>
    unfold checkDnsService
    cases env.dnsEvent <;> simp
  | iface =>
    unfold checkInterfaceService
    cases env.ifaceEvent <;> simp

/-- C2, counterexample.  The claim that an unknown `checkType` tag is
probed exactly as `tcp` fails on the code: the `switch` of
`checkService` groups `default` with `case 'http'`, so the tag `"foo"`
dispatches to the HTTP handler.  In an environment where the TCP
connect would succeed but the HTTP request errors, the two handlers
give different results. -/
theorem unknown_checktype_not_tcp_cex :
    dispatchHandler "foo" = Handler.http ∧
    ("foo" ∈ VALID_CHECK_TYPES) = False ∧
    checkService { checkType := "foo" }
        { httpEvent := HttpEvent.connError, tcpEvent := TcpEvent.connected } ≠
      checkTcpService { checkType := "foo" }
        { httpEvent := HttpEvent.connError, tcpEvent := TcpEvent.connected } := by
  refine ⟨rfl, by simp [VALID_CHECK_TYPES], ?_⟩
  decide

/-- C2, amended.  Every `checkType` tag other than the four explicit
cases `tcp`, `redis`, `dns`, `interface` — in particular every unknown
tag — is dispatched to the HTTP handler, i.e. probed exactly as
`checkType: 'http'` would be.  (`inferCheckType`, applied at
configuration-validation time, is where the `'tcp'` default lives; the
dispatch fallback itself is HTTP.) -/
theorem unknown_checktype_dispatches_http (s : Service) (env : ProbeEnv)
    (h1 : s.checkType ≠ "tcp") (h2 : s.checkType ≠ "redis")
    (h3 : s.checkType ≠ "dns") (h4 : s.checkType ≠ "interface") :
    checkService s env = checkHttpService s env := by
  have hd : dispatchHandler s.checkType = Handler.http := by
    unfold dispatchHandler
    split
    · exact absurd ‹_› h1
    · exact absurd ‹_› h2
    · exact absurd ‹_› h3
    · exact absurd ‹_› h4
    · rfl
  unfold checkService
  rw [hd]
  rfl

/-- C2 witness: the unknown tag `"foo"` is probed as HTTP. -/
theorem unknown_checktype_dispatches_http_witness :
    checkService { checkType := "foo" } { } =
      checkHttpService { checkType := "foo" } { } :=
  unknown_checktype_dispatches_http { checkType := "foo" } { }
    (by decide) (by decide) (by decide) (by decide)

/-- C3, counterexample.  The claim that a failure in any single fan-out
branch never prevents the snapshot from being returned fails on the
code for the host-metrics read: the `si.currentLoad`/`si.mem`/
`si.cpuTemperature`/`si.time` awaits inside `getSystemStats` are not
guarded, so their rejection rejects `getSystemStats`, the route's
`Promise.all` rejects with it, and the handler's `catch` answers with
the 500 error instead of a snapshot — even though every other branch
succeeded. -/
theorem snapshot_hostmetrics_failure_cex :
    systemRoute (α := Nat)
        (getSystemStats (Except.error ()) (Except.ok 0) (Except.ok []) (Except.ok []) 0)
        (Except.ok 0) WgOutcome.disabled [] = Except.error () := rfl

/-- C3, amended.  Whenever the host-metrics read (and the system-info
read) succeed, the snapshot is returned no matter what happens in the
other fan-out branches: a Docker-pass failure degrades to an empty
containers list, a network-stats failure to the default value, a
top-processes failure to an empty list, the VPN branch and the probes
never reject (their errors live inside their result values), and every
other branch's portion is passed through intact.  A host-metrics
rejection, by contrast, turns the whole request into the 500 error. -/
theorem branch_failure_isolation {α : Type} (h i netDefault : α)
    (netStats : Except Unit α) (docker : Except Unit (List α))
    (procs : Except Unit (List α)) (wireguard : WgOutcome α)
    (probes : List HealthResult) :
    systemRoute (getSystemStats (Except.ok h) netStats docker procs netDefault)
        (Except.ok i) wireguard probes =
      Except.ok
        { stats :=
            { host := h
              network := match netStats with
                | Except.ok n => n
                | Except.error _ => netDefault
              containers := match docker with
                | Except.ok cs => cs
                | Except.error _ => []
              processes := match procs with
                | Except.ok ps => ps
                | Except.error _ => [] }
          info := i
          services := probes
          wireguard := if wireguard.enabled then some wireguard else none } := rfl

/-- C4.  For every service descriptor and every I/O event, the
dispatched probe resolves with a `HealthResult` (each checker is a
total function of the observed event — no event leaves the promise
pending or rejected), a timeout or connection-failure event resolves to
`status: 'offline'` with null latency (so a closed/unreachable port
yields `offline`, never an exception), and every asynchronous handler
arms its watchdog at 3000 ms (the interface check is a bare
`fs.access` existence test with no timer). -/
theorem probe_failure_resolves_offline (s : Service) (env : ProbeEnv) :
    (failureEvent (dispatchHandler s.checkType) env = true →
      (checkService s env).status = Status.offline ∧
        (checkService s env).latency = none) ∧
    (dispatchHandler s.checkType ≠ Handler.iface →
      handlerTimeoutMs (dispatchHandler s.checkType) = some 3000) := by
  obtain ⟨he, te, re, de, ie, el⟩ := env
  unfold checkService
  cases dispatchHandler s.checkType with
  | http =>
    refine ⟨fun hf => ?_, fun _ => rfl⟩
    cases he <;> simp_all [runHandler, checkHttpService, failureEvent]
  | tcp =>
    refine ⟨fun hf => ?_, fun _ => rfl⟩
    cases te <;> simp_all [runHandler, checkTcpService, failureEvent]
  | redis =>
    refine ⟨fun hf => ?_, fun _ => rfl⟩
    cases re <;> simp_all [runHandler, checkRedisService, failureEvent]
  | dns =>
    refine ⟨fun hf => ?_, fun _ => rfl⟩
    cases de <;> simp_all [runHandler, checkDnsService, failureEvent]
  | iface =>
    refine ⟨fun hf => ?_, fun hni => absurd rfl hni⟩
    cases ie <;> simp_all [runHandler, checkInterfaceService, failureEvent]

/-- C4 witness: a TCP probe of a closed port (connection refused)
resolves to `offline` with null latency, under the 3000 ms watchdog. -/
theorem probe_failure_resolves_offline_witness :
    ((checkService { checkType := "tcp", port := 1 }
        { tcpEvent := TcpEvent.connError }).status = Status.offline ∧
      (checkService { checkType := "tcp", port := 1 }
        { tcpEvent := TcpEvent.connError }).latency = none) ∧
    handlerTimeoutMs (dispatchHandler ({ checkType := "tcp", port := 1 } : Service).checkType) =
      some 3000 := by
  have h := probe_failure_resolves_offline { checkType := "tcp", port := 1 }
    { tcpEvent := TcpEvent.connError }
  exact ⟨h.1 (by decide), h.2 (by decide)⟩

/-! ### Delta metric cache lemmas -/

theorem cacheGet_cacheSet_same (cache : CpuCache) (id : String) (s : CpuSample) :
    cacheGet (cacheSet cache id s) id = some s := by
  induction cache with
  | nil => simp [cacheSet, cacheGet]
  | cons kv t ih =>
    obtain ⟨k, v⟩ := kv
    by_cases h : k = id <;> simp [cacheSet, cacheGet, h, ih]

theorem cacheGet_cacheSet_other (cache : CpuCache) (id id' : String)
    (s : CpuSample) (h : id' ≠ id) :
    cacheGet (cacheSet cache id' s) id = cacheGet cache id := by
  induction cache with
  | nil => simp [cacheSet, cacheGet, h]
  | cons kv t ih =>
    obtain ⟨k, v⟩ := kv
    by_cases hk : k = id'
    · subst hk
      simp [cacheSet, cacheGet, h, ih]
    · simp [cacheSet, cacheGet, hk, ih]

theorem cacheGet_recordAll_other (ops : List (String × CpuSample))
    (cache : CpuCache) (id : String) (h : ∀ o ∈ ops, o.1 ≠ id) :
    cacheGet (recordAll ops cache) id = cacheGet cache id := by
  induction ops generalizing cache with
  | nil => rfl
  | cons o t ih =>
    obtain ⟨id', s'⟩ := o
    have hne : id' ≠ id := h (id', s') (List.mem_cons_self _ _)
    have ht : ∀ o ∈ t, o.1 ≠ id := fun o ho => h o (List.mem_cons_of_mem _ ho)
    calc cacheGet (recordAll t (record cache id' s').2) id
        = cacheGet (record cache id' s').2 id := ih _ ht
      _ = cacheGet cache id := cacheGet_cacheSet_other cache id id' s' hne

/-- C5.  The delta metric cache's `record` contract (the
`cpuCache.get` / `cpuCache.set` pair of `calculateCpuPercent`):
(1) with no prior sample for a source id, `record` returns null;
(2) after recording a sample for an id, any later `record` for that id
returns exactly that sample, no matter which records for *other* ids
are interleaved (so entries for distinct source ids are isolated);
(3) recording under one id leaves every other id's entry untouched;
(4) `calculateCpuPercent` reports a 0% rate on the first observation of
a container. -/
theorem delta_cache_record_spec (cache : CpuCache) (id : String) (s : CpuSample) :
    (cacheGet cache id = none → (record cache id s).1 = none) ∧
    (∀ (ops : List (String × CpuSample)) (s' : CpuSample),
      (∀ o ∈ ops, o.1 ≠ id) →
      (record (recordAll ops (record cache id s).2) id s').1 = some s) ∧
    (∀ (id' : String) (s' : CpuSample), id' ≠ id →
      cacheGet (record cache id' s').2 id = cacheGet cache id) ∧
    (∀ (numCpus : Nat) (u nowUsec : Int),
      cacheGet cache id = none →
      (calculateCpuPercent numCpus cache id (some u) nowUsec).1 = 0) := by
  refine ⟨fun h => h, fun ops s' hops => ?_, fun id' s' h => ?_, fun n u now h => ?_⟩
  · show cacheGet (recordAll ops (cacheSet cache id s)) id = some s
    rw [cacheGet_recordAll_other ops _ id hops, cacheGet_cacheSet_same]
  · exact cacheGet_cacheSet_other cache id id' s' h
  · simp [calculateCpuPercent, record, h]

/-- C5 witness: on an empty cache the first `record` for `"a"` returns
null; after it, a record for `"b"` does not disturb `"a"`'s entry, and
the next `record` for `"a"` returns the first sample; the first
observation of a container rates 0%. -/
theorem delta_cache_record_spec_witness :
    (record [] "a" ⟨1, 2⟩).1 = none ∧
    (record (recordAll [("b", ⟨5, 6⟩)] (record [] "a" ⟨1, 2⟩).2) "a" ⟨3, 4⟩).1 =
      some ⟨1, 2⟩ ∧
    cacheGet (record [] "b" ⟨5, 6⟩).2 "a" = cacheGet [] "a" ∧
    (calculateCpuPercent 4 [] "a" (some 1000000) 5000000).1 = 0 := by
  have h := delta_cache_record_spec [] "a" ⟨1, 2⟩
  exact ⟨h.1 rfl, h.2.1 [("b", ⟨5, 6⟩)] ⟨3, 4⟩ (by decide),
    h.2.2.1 "b" ⟨5, 6⟩ (by decide), h.2.2.2 4 1000000 5000000 rfl⟩

/-! ### WireGuard peer-block state machine -/

/-- A line starting with `public key:` cannot also start with `peer:`
(they differ at the second character). -/
theorem strStarts_pub_not_peer (t : String)
    (h : strStarts t "public key:" = true) : strStarts t "peer:" = false := by
  unfold strStarts at h ⊢
  rw [show "public key:".toList = ['p', 'u', 'b', 'l', 'i', 'c', ' ', 'k', 'e', 'y', ':'] from rfl] at h
  rw [show "peer:".toList = ['p', 'e', 'e', 'r', ':'] from rfl]
  cases hcs : t.toList with
  | nil => rw [hcs] at h; simp [List.isPrefixOf] at h
  | cons a l =>
    cases l with
    | nil => rw [hcs] at h; simp [List.isPrefixOf] at h
    | cons b l2 =>
      rw [hcs] at h
      simp_all [List.isPrefixOf]
      intro _ hb
      rw [← hb] at h
      exact absurd h.2.1 (by decide)

/-- A line starting with `listening port:` cannot also start with
`peer:` (they differ at the first character). -/
theorem strStarts_listen_not_peer (t : String)
    (h : strStarts t "listening port:" = true) : strStarts t "peer:" = false := by
  unfold strStarts at h ⊢
  rw [show "listening port:".toList =
    ['l', 'i', 's', 't', 'e', 'n', 'i', 'n', 'g', ' ', 'p', 'o', 'r', 't', ':'] from rfl] at h
  rw [show "peer:".toList = ['p', 'e', 'e', 'r', ':'] from rfl]
  cases hcs : t.toList with
  | nil => rw [hcs] at h; simp [List.isPrefixOf] at h
  | cons a l =>
    rw [hcs] at h
    simp_all [List.isPrefixOf]
    intro ha
    rw [← ha] at h
    exact absurd h.1 (by decide)

/-- One step of the state machine changes the flushed-plus-pending
block count by exactly 1 on a `peer:` marker line and by 0 on every
other line. -/
theorem wgStep_count (nowSec : Int) (st : WgState) (l : String) :
    (wgStep nowSec st l).peers.length + countCur (wgStep nowSec st l).current =
      st.peers.length + countCur st.current +
        (if strStarts (jsTrim l) "peer:" = true then 1 else 0) := by
  obtain ⟨ifc, peers0, cur0⟩ := st
  simp only [wgStep]
  cases h1 : strStarts (jsTrim l) "public key:" with
  | true =>
    rw [strStarts_pub_not_peer _ h1]
    cases cur0 <;> simp [countCur]
  | false =>
    cases h2 : strStarts (jsTrim l) "listening port:" with
    | true =>
      rw [strStarts_listen_not_peer _ h2]
      simp [countCur]
    | false =>
      cases h3 : strStarts (jsTrim l) "peer:" with
      | true =>
        cases cur0 <;> simp [countCur]
      | false =>
        cases cur0 <;> simp [countCur]

/-- Folding the state machine over a line list adds one block (flushed
or pending) per `peer:` marker line. -/
theorem wgFold_count (nowSec : Int) (lines : List String) (st : WgState) :
    (lines.foldl (wgStep nowSec) st).peers.length +
        countCur (lines.foldl (wgStep nowSec) st).current =
      st.peers.length + countCur st.current +
        (lines.filter (fun l => strStarts (jsTrim l) "peer:")).length := by
  induction lines generalizing st with
  | nil => simp
  | cons l t ih =>
    rw [List.foldl_cons, ih, wgStep_count]
    cases hx : strStarts (jsTrim l) "peer:" with
    | false => simp [List.filter_cons, hx]
    | true => simp [List.filter_cons, hx]; omega

/-- C6.  (General) Every `peer:` marker line of a status text starts a
peer block — flushing the previous one — and the final block is flushed
unconditionally at end of input, so `parseWgShow` yields exactly one
peer record per `peer:` marker line.  (Concrete) A status text with two
`peer:` markers yields exactly the two peer records, the `endpoint:`
and `latest handshake:` lines between the first marker and the second
being attributed only to the first block, and the detail lines after
the second marker only to the second block. -/
theorem wg_peer_blocks_spec :
    (∀ (output iface : String) (now : Int),
      (parseWgShow output iface now).peers.length = peerMarkerCount output) ∧
    parseWgShow
        (String.intercalate "\n"
          ["interface: wg0", "  public key: IFACEKEY=", "  listening port: 51820", "",
           "peer: PEERONEKEY=", "  endpoint: 1.2.3.4:51820",
           "  latest handshake: 1 minute, 5 seconds ago", "",
           "peer: PEERTWOKEY=", "  endpoint: 5.6.7.8:443"])
        "wg0" 1000000 =
      { interface :=
          { name := "wg0", publicKey := some "IFACEKEY=", listenPort := some 51820 }
        peers :=
          [{ publicKey := "PEERONEKEY=", endpoint := some "1.2.3.4:51820",
             lastHandshake := some 999935, lastHandshakeSeconds := some 65,
             transferReceived := some 0, transferSent := some 0 },
           { publicKey := "PEERTWOKEY=", endpoint := some "5.6.7.8:443",
             lastHandshake := none, lastHandshakeSeconds := none,
             transferReceived := some 0, transferSent := some 0 }] } := by
  constructor
  · intro output iface now
    unfold parseWgShow peerMarkerCount
    have h := wgFold_count now (jsSplitNl output)
      { interface := { name := iface }, peers := [], current := none }
    cases hc : ((jsSplitNl output).foldl (wgStep now)
        { interface := { name := iface }, peers := [], current := none }).current <;>
      rw [hc] at h <;> simp [countCur, hc] at h ⊢ <;> omega
  · decide

/-! ### Transfer clause parsing -/

theorem parseBytes_365_MiB : parseBytes "3.65" "MiB" = some 3827302 := by
  have hv : jsParseFloat "3.65" =
      some ((natOfDigits ['3'] : ℚ) + (natOfDigits ['6', '5'] : ℚ) / 10 ^ 2) := rfl
  have hm : unitMultiplier "MiB" = 1024 * 1024 := rfl
  unfold parseBytes
  rw [hv, Option.map_some', hm,
    show natOfDigits ['3'] = 3 from rfl, show natOfDigits ['6', '5'] = 65 from rfl]
  norm_num [jsRound]

theorem parseBytes_1721_MiB : parseBytes "17.21" "MiB" = some 18045993 := by
  have hv : jsParseFloat "17.21" =
      some ((natOfDigits ['1', '7'] : ℚ) + (natOfDigits ['2', '1'] : ℚ) / 10 ^ 2) := rfl
  have hm : unitMultiplier "MiB" = 1024 * 1024 := rfl
  unfold parseBytes
  rw [hv, Option.map_some', hm,
    show natOfDigits ['1', '7'] = 17 from rfl, show natOfDigits ['2', '1'] = 21 from rfl]
  norm_num [jsRound]

/-- C8, counterexample.  On the input
`"3.65 MiB received, 17.21 MiB sent"` the code yields
`received = 3827302` and `sent = 18045993` bytes
(`Math.round(3.65 * 2^20)` and `Math.round(17.21 * 2^20)`), not the
claimed `3827630` and `18043607`: those figures are off by 328 and 2386
bytes, far beyond rounding tolerance. -/
theorem transfer_bytes_cex :
    (parseWgShow "peer: K\n  transfer: 3.65 MiB received, 17.21 MiB sent"
        "wg0" 0).peers =
      [{ publicKey := "K", transferReceived := some 3827302,
         transferSent := some 18045993 }] ∧
    ¬ (|(3827302 : Int) - 3827630| ≤ 1) ∧ ¬ (|(18045993 : Int) - 18043607| ≤ 1) := by
  refine ⟨?_, by decide, by decide⟩
  have h : (parseWgShow "peer: K\n  transfer: 3.65 MiB received, 17.21 MiB sent"
      "wg0" 0).peers =
    [{ publicKey := "K", transferReceived := parseBytes "3.65" "MiB",
       transferSent := parseBytes "17.21" "MiB" }] := rfl
  rw [h, parseBytes_365_MiB, parseBytes_1721_MiB]

/-- C8, amended.  The transfer parser converts the `received` and
`sent` clauses independently to bytes with the binary (1024-based)
multipliers for `B`, `KiB`, `MiB`, `GiB`; an absent clause leaves the
0-byte default in place; and on the input
`"3.65 MiB received, 17.21 MiB sent"` it yields `received = 3827302`
and `sent = 18045993` bytes. -/
theorem transfer_bytes_spec :
    (∀ (v : String) (q : ℚ), jsParseFloat v = some q →
      parseBytes v "B" = some (jsRound q) ∧
      parseBytes v "KiB" = some (jsRound (q * 1024)) ∧
      parseBytes v "MiB" = some (jsRound (q * (1024 * 1024))) ∧
      parseBytes v "GiB" = some (jsRound (q * (1024 * 1024 * 1024)))) ∧
    peerDetail 0 { publicKey := "K" } "transfer: 17.21 MiB sent" =
      { publicKey := "K", transferSent := some 18045993 } ∧
    peerDetail 0 { publicKey := "K" } "transfer: 3.65 MiB received" =
      { publicKey := "K", transferReceived := some 3827302 } ∧
    (parseWgShow "peer: K\n  transfer: 3.65 MiB received, 17.21 MiB sent"
        "wg0" 0).peers =
      [{ publicKey := "K", transferReceived := some 3827302,
         transferSent := some 18045993 }] := by
  refine ⟨fun v q h => ?_, ?_, ?_, ?_⟩
  · unfold parseBytes
    rw [h]
    simp only [Option.map_some']
    rw [show unitMultiplier "B" = 1 from rfl, show unitMultiplier "KiB" = 1024 from rfl,
      show unitMultiplier "MiB" = 1024 * 1024 from rfl,
      show unitMultiplier "GiB" = 1024 * 1024 * 1024 from rfl, mul_one]
    exact ⟨rfl, rfl, rfl, rfl⟩
  · have h : peerDetail 0 { publicKey := "K" } "transfer: 17.21 MiB sent" =
        { publicKey := "K", transferSent := parseBytes "17.21" "MiB" } := rfl
    rw [h, parseBytes_1721_MiB]
  · have h : peerDetail 0 { publicKey := "K" } "transfer: 3.65 MiB received" =
        { publicKey := "K", transferReceived := parseBytes "3.65" "MiB" } := rfl
    rw [h, parseBytes_365_MiB]
  · have h : (parseWgShow "peer: K\n  transfer: 3.65 MiB received, 17.21 MiB sent"
        "wg0" 0).peers =
      [{ publicKey := "K", transferReceived := parseBytes "3.65" "MiB",
         transferSent := parseBytes "17.21" "MiB" }] := rfl
    rw [h, parseBytes_365_MiB, parseBytes_1721_MiB]

/-- C8 witness: the multiplier clause of the amended theorem applied to
the decimal text `"2"`. -/
theorem transfer_bytes_spec_witness :
    parseBytes "2" "B" = some (jsRound ((2 : ℕ) : ℚ)) ∧
    parseBytes "2" "KiB" = some (jsRound (((2 : ℕ) : ℚ) * 1024)) ∧
    parseBytes "2" "MiB" = some (jsRound (((2 : ℕ) : ℚ) * (1024 * 1024))) ∧
    parseBytes "2" "GiB" = some (jsRound (((2 : ℕ) : ℚ) * (1024 * 1024 * 1024))) :=
  transfer_bytes_spec.1 "2" ((2 : ℕ) : ℚ) rfl

/-! ### WireGuard command gate -/

/-- C7.  For a settings record with WireGuard monitoring enabled whose
interface name (defaulted to `wg0` when absent or empty) fails the
safety pattern `^[a-zA-Z0-9_-]{1,15}$`, `getWireGuardData` returns the
structured error `'Invalid WireGuard interface name'` at the gate,
before any `wg show` command would be executed; and the injection
attempt `"wg0; rm -rf /"` does fail the pattern. -/
theorem iface_gate_rejects_invalid :
    (∀ settings : WgSettings, settings.enabled = true →
      validIface (optOrDefault settings.interface "wg0") = false →
      wireGuardGate (some settings) =
        WgGate.invalidIface "Invalid WireGuard interface name") ∧
    validIface "wg0; rm -rf /" = false := by
  refine ⟨fun settings hen hval => ?_, by decide⟩
  unfold wireGuardGate
  simp [hen, hval]

/-- C7 witness: the settings `{enabled: true, interface: "wg0; rm -rf /"}`
are answered with the structured error, not a command execution. -/
theorem iface_gate_rejects_invalid_witness :
    wireGuardGate (some { enabled := true, interface := some "wg0; rm -rf /" }) =
      WgGate.invalidIface "Invalid WireGuard interface name" :=
  iface_gate_rejects_invalid.1
    { enabled := true, interface := some "wg0; rm -rf /" } rfl (by decide)

/-! ### Discovery scanner lemmas -/

/-- C9.  The identification precedence of the TCP discovery loop:
(1) a line whose owning process is in the known-process table is
identified from that table; (2) otherwise a port in the known-port
table is identified from it; (3) otherwise ports below 10000 get the
generic fallback entry (named after the process when one was
extracted); (4) ports ≥ 10000 matching neither table are dropped.
Concretely, the line
`LISTEN 0 128 0.0.0.0:8096 0.0.0.0:* users:(("jellyfin",pid=123,fd=43))`
is discovered as service "Jellyfin" on port 8096 with checkType `http`
via the known-process table. -/
theorem discovery_precedence :
    (∀ (s : String) (e : KnownEntry) (port : Nat),
      knownProcesses s = some e → identifyService (some s) port = some e) ∧
    (∀ (pn : Option String) (port : Nat) (e : KnownEntry),
      pn.bind knownProcesses = none → knownServices port = some e →
      identifyService pn port = some e) ∧
    (∀ (pn : Option String) (port : Nat),
      pn.bind knownProcesses = none → knownServices port = none → port < 10000 →
      identifyService pn port =
        some { name := match pn with
                 | some p => p
                 | none => "Port " ++ toString port
               icon := "server", checkType := "tcp", path := some "/" }) ∧
    (∀ (pn : Option String) (port : Nat),
      pn.bind knownProcesses = none → knownServices port = none → 10000 ≤ port →
      identifyService pn port = none) ∧
    discoverServices
        "LISTEN 0 128 0.0.0.0:8096 0.0.0.0:* users:((\"jellyfin\",pid=123,fd=43))" "" =
      [{ name := "Jellyfin", port := 8096, path := "/", host := "localhost",
         icon := "film", checkType := "http", enabled := true, discovered := true,
         process := some "jellyfin", protocol := none }] := by
  refine ⟨fun s e port h => ?_, fun pn port e h1 h2 => ?_,
    fun pn port h1 h2 h3 => ?_, fun pn port h1 h2 h3 => ?_, by decide⟩
  · simp [identifyService, h]
  · simp [identifyService, h1, h2]
  · simp [identifyService, h1, h2, h3]
  · simp [identifyService, h1, h2, Nat.not_lt.mpr h3]

/-- C9 witness: the four precedence clauses at concrete inputs — the
process name wins over the port table, the port table applies when the
process is unknown, port 7777 gets the generic fallback, and port 20000
with no table match is dropped. -/
theorem discovery_precedence_witness :
    identifyService (some "jellyfin") 8080 =
      some { name := "Jellyfin", icon := "film", checkType := "http", path := some "/" } ∧
    identifyService none 8096 =
      some { name := "Jellyfin", icon := "film", checkType := "http", path := some "/" } ∧
    identifyService (some "foo") 7777 =
      some { name := "foo", icon := "server", checkType := "tcp", path := some "/" } ∧
    identifyService none 20000 = none :=
  ⟨discovery_precedence.1 "jellyfin" _ 8080 rfl,
    discovery_precedence.2.1 none 8096 _ rfl rfl,
    discovery_precedence.2.2.1 (some "foo") 7777 rfl rfl (by decide),
    discovery_precedence.2.2.2.1 none 20000 rfl rfl (by decide)⟩

/-- The TCP loop preserves `p ∈ seen` and the absence of `p` among the
discovered ports: once a port is in the seen set, no later line can
discover it again. -/
theorem tcpStep_clean (p : Nat) (st : ScanState) (l : String)
    (hseen : p ∈ st.seen) (hacc : ∀ d ∈ st.acc, d.port ≠ p) :
    p ∈ (tcpStep st l).seen ∧ ∀ d ∈ (tcpStep st l).acc, d.port ≠ p := by
  unfold tcpStep
  cases hsc : scanAddr l.toList with
  | none => exact ⟨hseen, hacc⟩
  | some port =>
    dsimp only
    by_cases hskip : port > 32767 ∨ port ∈ st.seen
    · rw [if_pos hskip]
      exact ⟨hseen, hacc⟩
    · rw [if_neg hskip]
      have hne : port ≠ p := fun hpe => hskip (Or.inr (hpe ▸ hseen))
      cases hloc : containsSub l "127.0.0.1" with
      | true =>
        simp only [hloc, if_true]
        exact ⟨List.mem_cons_of_mem _ hseen, hacc⟩
      | false =>
        simp only [hloc, Bool.false_eq_true, if_false]
        cases hid : identifyService (scanProc l.toList) port with
        | none => exact ⟨List.mem_cons_of_mem _ hseen, hacc⟩
        | some entry =>
          refine ⟨List.mem_cons_of_mem _ hseen, fun d hd => ?_⟩
          rcases List.mem_append.mp hd with hd | hd
          · exact hacc d hd
          · rcases List.mem_singleton.mp hd with rfl
            simpa [mkDiscovered] using hne

/-- The UDP loop preserves the same invariant. -/
theorem udpStep_clean (p : Nat) (st : ScanState) (l : String)
    (hseen : p ∈ st.seen) (hacc : ∀ d ∈ st.acc, d.port ≠ p) :
    p ∈ (udpStep st l).seen ∧ ∀ d ∈ (udpStep st l).acc, d.port ≠ p := by
  unfold udpStep
  cases hsc : scanAddrUdp l.toList with
  | none => exact ⟨hseen, hacc⟩
  | some port =>
    dsimp only
    by_cases hmem : port ∈ st.seen
    · rw [if_pos hmem]
      exact ⟨hseen, hacc⟩
    · rw [if_neg hmem]
      have hne : port ≠ p := fun hpe => hmem (hpe ▸ hseen)
      cases hid : knownUdpServices port with
      | none => exact ⟨hseen, hacc⟩
      | some entry =>
        refine ⟨List.mem_cons_of_mem _ hseen, fun d hd => ?_⟩
        rcases List.mem_append.mp hd with hd | hd
        · exact hacc d hd
        · rcases List.mem_singleton.mp hd with rfl
          simpa using hne

theorem foldl_tcp_clean (p : Nat) (lines : List String) (st : ScanState)
    (hseen : p ∈ st.seen) (hacc : ∀ d ∈ st.acc, d.port ≠ p) :
    p ∈ (lines.foldl tcpStep st).seen ∧
      ∀ d ∈ (lines.foldl tcpStep st).acc, d.port ≠ p := by
  induction lines generalizing st with
  | nil => exact ⟨hseen, hacc⟩
  | cons l t ih =>
    obtain ⟨h1, h2⟩ := tcpStep_clean p st l hseen hacc
    exact ih (tcpStep st l) h1 h2

theorem foldl_udp_clean (p : Nat) (lines : List String) (st : ScanState)
    (hseen : p ∈ st.seen) (hacc : ∀ d ∈ st.acc, d.port ≠ p) :
    p ∈ (lines.foldl udpStep st).seen ∧
      ∀ d ∈ (lines.foldl udpStep st).acc, d.port ≠ p := by
  induction lines generalizing st with
  | nil => exact ⟨hseen, hacc⟩
  | cons l t ih =>
    obtain ⟨h1, h2⟩ := udpStep_clean p st l hseen hacc
    exact ih (udpStep st l) h1 h2

/-- A TCP line whose extracted port is not `p` can neither put `p` into
the seen set nor discover a service on port `p`. -/
theorem tcpStep_avoid (p : Nat) (st : ScanState) (l : String)
    (hsc : scanAddr l.toList ≠ some p)
    (hseen : p ∉ st.seen) (hacc : ∀ d ∈ st.acc, d.port ≠ p) :
    p ∉ (tcpStep st l).seen ∧ ∀ d ∈ (tcpStep st l).acc, d.port ≠ p := by
  unfold tcpStep
  cases hs : scanAddr l.toList with
  | none => exact ⟨hseen, hacc⟩
  | some port =>
    have hne : port ≠ p := fun hpe => hsc (hpe ▸ hs)
    dsimp only
    by_cases hskip : port > 32767 ∨ port ∈ st.seen
    · rw [if_pos hskip]
      exact ⟨hseen, hacc⟩
    · rw [if_neg hskip]
      have hmem : p ∉ port :: st.seen := by
        intro hp
        rcases List.mem_cons.mp hp with hp | hp
        · exact hne hp.symm
        · exact hseen hp
      cases hloc : containsSub l "127.0.0.1" with
      | true =>
        simp only [hloc, if_true]
        exact ⟨hmem, hacc⟩
      | false =>
        simp only [hloc, Bool.false_eq_true, if_false]
        cases hid : identifyService (scanProc l.toList) port with
        | none => exact ⟨hmem, hacc⟩
        | some entry =>
          refine ⟨hmem, fun d hd => ?_⟩
          rcases List.mem_append.mp hd with hd | hd
          · exact hacc d hd
          · rcases List.mem_singleton.mp hd with rfl
            simpa [mkDiscovered] using hne

theorem foldl_tcp_avoid (p : Nat) (lines : List String) (st : ScanState)
    (hlines : ∀ l ∈ lines, scanAddr l.toList ≠ some p)
    (hseen : p ∉ st.seen) (hacc : ∀ d ∈ st.acc, d.port ≠ p) :
    p ∉ (lines.foldl tcpStep st).seen ∧
      ∀ d ∈ (lines.foldl tcpStep st).acc, d.port ≠ p := by
  induction lines generalizing st with
  | nil => exact ⟨hseen, hacc⟩
  | cons l t ih =>
    obtain ⟨h1, h2⟩ := tcpStep_avoid p st l (hlines l (List.mem_cons_self _ _)) hseen hacc
    exact ih (tcpStep st l) (fun l' hl' => hlines l' (List.mem_cons_of_mem _ hl')) h1 h2

/-- Processing a loopback-bound line whose port is new marks the port
seen and discovers nothing. -/
theorem tcpStep_loopback (p : Nat) (st : ScanState) (l : String)
    (hs : scanAddr l.toList = some p) (hle : p ≤ 32767) (hseen : p ∉ st.seen)
    (hloc : containsSub l "127.0.0.1" = true) :
    (tcpStep st l).seen = p :: st.seen ∧ (tcpStep st l).acc = st.acc := by
  unfold tcpStep
  rw [hs]
  dsimp only
  have hskip : ¬ (p > 32767 ∨ p ∈ st.seen) := by
    rintro (h | h)
    · omega
    · exact hseen h
  rw [if_neg hskip]
  simp [hloc]

theorem mem_insertByPort (d x : Discovered) (l : List Discovered) :
    x ∈ insertByPort d l ↔ x = d ∨ x ∈ l := by
  induction l with
  | nil => simp [insertByPort]
  | cons y t ih =>
    unfold insertByPort
    by_cases h : y.port ≤ d.port
    · rw [if_pos h]
      simp [ih]
      try tauto
    · rw [if_neg h]
      simp
      try tauto

theorem mem_sortByPort (x : Discovered) (l : List Discovered) :
    x ∈ sortByPort l ↔ x ∈ l := by
  have hgen : ∀ (l acc : List Discovered),
      (x ∈ l.foldl (fun acc d => insertByPort d acc) acc ↔ x ∈ acc ∨ x ∈ l) := by
    intro l
    induction l with
    | nil => simp
    | cons y t ih =>
      intro acc
      rw [List.foldl_cons, ih, mem_insertByPort]
      simp
      tauto
  unfold sortByPort
  rw [hgen]
  simp

/-- C10.  In the TCP discovery loop the port is added to the seen set
*before* the loopback-only check: for any socket listing in which port
`p` first appears on a line bound to `127.0.0.1`, every later line with
port `p` (in particular a wildcard-bound one) is treated as a
duplicate, so the scanner's result contains no service on port `p` at
all — regardless of the rest of the TCP listing and of the UDP pass. -/
theorem loopback_first_port_dropped (pre : List String) (l1 : String)
    (rest udp : List String) (p : Nat)
    (hpre : ∀ l ∈ pre, scanAddr l.toList ≠ some p)
    (hl1 : scanAddr l1.toList = some p)
    (hle : p ≤ 32767)
    (hloc : containsSub l1 "127.0.0.1" = true) :
    (runScan (pre ++ l1 :: rest) udp).all (fun d => d.port != p) = true := by
  unfold runScan
  rw [List.foldl_append, List.foldl_cons]
  set st0 : ScanState := { seen := [], acc := [] } with hst0
  obtain ⟨hseen0, hacc0⟩ := foldl_tcp_avoid p pre st0 hpre (by simp [hst0]) (by simp [hst0])
  obtain ⟨hs1, ha1⟩ := tcpStep_loopback p (pre.foldl tcpStep st0) l1 hl1 hle hseen0 hloc
  have hseen1 : p ∈ (tcpStep (pre.foldl tcpStep st0) l1).seen := by
    rw [hs1]
    exact List.mem_cons_self _ _
  have hacc1 : ∀ d ∈ (tcpStep (pre.foldl tcpStep st0) l1).acc, d.port ≠ p := by
    rw [ha1]
    exact hacc0
  obtain ⟨hseen2, hacc2⟩ := foldl_tcp_clean p rest _ hseen1 hacc1
  obtain ⟨hseen3, hacc3⟩ := foldl_udp_clean p udp _ hseen2 hacc2
  rw [List.all_eq_true]
  intro d hd
  rw [bne_iff_ne, ne_eq]
  exact hacc3 d ((mem_sortByPort d _).mp hd)

/-- C10 witness: a listing in which port 8096 appears first bound to
`127.0.0.1` and then to `0.0.0.0` discovers nothing on port 8096. -/
theorem loopback_first_port_dropped_witness :
    (runScan
        ["LISTEN 0 128 127.0.0.1:8096 0.0.0.0:* users:((\"jellyfin\",pid=1,fd=3))",
         "LISTEN 0 128 0.0.0.0:8096 0.0.0.0:* users:((\"jellyfin\",pid=1,fd=3))"]
        []).all (fun d => d.port != 8096) = true :=
  loopback_first_port_dropped []
    "LISTEN 0 128 127.0.0.1:8096 0.0.0.0:* users:((\"jellyfin\",pid=1,fd=3))"
    ["LISTEN 0 128 0.0.0.0:8096 0.0.0.0:* users:((\"jellyfin\",pid=1,fd=3))"]
    [] 8096 (by simp) (by decide) (by decide) (by decide)

end PiDash
